import Mathlib

/-!
Verification of the weather data reconciliation engine
(`weather_website/database_helper.py`, with the year-completeness contrast
function from `fetching_data/database.py`).

Shallow embedding conventions:
* The MySQL table `weather_data` is a list of `Row`s; the unique key
  `(city, date)` is the invariant `KeyUnique`.
* SQL `DATE` values are `Date` records of year/month/day; SQL date
  comparison (`BETWEEN`, `ORDER BY date`) is modelled by the numeric
  encoding `Date.code` (order-isomorphic to calendar order on valid dates).
* Float measurement fields (temperatures, rain, sunshine) are carried as
  `Int`: the engine never does arithmetic on them, it only stores,
  overwrites and returns them.
* The float comparison `coverage_ratio >= 0.8` is modelled exactly over `ℚ`.
* Network and connection effects are an explicit `Env`: `connOk` is whether
  `create_connection` succeeds, `queryExc` whether a cursor query raises,
  `resolve` is the geocoding outcome of `get_city_coordinates`, `archive`
  the archive-API response, and `execErr` an injected per-record error of
  the `INSERT .. ON DUPLICATE KEY UPDATE` statement (`duplicateKey` is
  MySQL errno 1062, `otherErr` any other `mysql.connector.Error`).
  Every `try/except` of the source is translated into the corresponding
  fallback value, so each function is total exactly the way the Python
  function catches and returns.
* Calls to the network are recorded as `Event`s so that claims about
  "zero fetch calls" and "which years are processed" are statable.
-/

set_option maxRecDepth 40000

namespace Weather

/-- Calendar date as stored in the SQL `DATE` column. -/
structure Date where
  year : Nat
  month : Nat
  day : Nat
deriving DecidableEq, Repr

/-- Numeric encoding of a date; on valid dates it is order-isomorphic to
calendar order, and it is how SQL date comparison is modelled. -/
def Date.code (d : Date) : Nat := d.year * 10000 + d.month * 100 + d.day

/-- Leap-year rule, from `has_complete_year_data` in `fetching_data/database.py`:
`year % 4 == 0 and (year % 100 != 0 or year % 400 == 0)`. -/
def is_leap_year (year : Nat) : Bool :=
  year % 4 == 0 && (year % 100 != 0 || year % 400 == 0)

/-- Expected day count of a calendar year (365 or 366), from
`has_complete_year_data` in `fetching_data/database.py`. -/
def expectedDaysInYear (year : Nat) : Nat :=
  if is_leap_year year then 366 else 365

/-- Cumulative days before each month in a non-leap year
(the table underlying `datetime`'s ordinal computation). -/
def cumDaysBeforeMonth : List Nat :=
  [0, 31, 59, 90, 120, 151, 181, 212, 243, 273, 304, 334]

/-- Proleptic-Gregorian ordinal of a date, as `datetime.date.toordinal`:
day 1 is 0001-01-01.  `check_date_range_coverage` subtracts two
`datetime.strptime` values; that difference is the difference of ordinals. -/
def Date.toOrdinal (d : Date) : Nat :=
  let py := d.year - 1
  365 * py + py / 4 - py / 100 + py / 400
    + cumDaysBeforeMonth.getD (d.month - 1) 0
    + (if 2 < d.month && is_leap_year d.year then 1 else 0)
    + d.day

/-- `expected_days = (end_dt - start_dt).days + 1` from
`check_date_range_coverage` (an `Int`: negative when `end` is before `start`). -/
def expectedDays (s e : Date) : Int :=
  (e.toOrdinal : Int) - (s.toOrdinal : Int) + 1

/-- A record as produced by the fetcher (`processed_data.append({...})` in
`fetch_weather_data` / `fetch_weather_data_for_year`). -/
structure WRecord where
  city : String
  country : String
  date : Date
  temperature_max : Int
  temperature_min : Int
  rain_sum : Int
  sunshine_duration : Int
  latitude : Int
  longitude : Int
deriving DecidableEq, Repr

/-- A row of the `weather_data` table (the columns touched by the engine;
`id` and the timestamps carry no engine-visible information). -/
structure Row where
  city : String
  country : String
  date : Date
  temperature_max : Int
  temperature_min : Int
  rain_sum : Int
  sunshine_duration : Int
  year : Nat
  latitude : Int
  longitude : Int
deriving DecidableEq, Repr

/-- The `weather_data` table. -/
abbrev Store := List Row

/-- The `UNIQUE KEY uniq_city_date (city, date)` constraint. -/
def KeyUnique (store : Store) : Prop :=
  store.Pairwise (fun a b => ¬(a.city = b.city ∧ a.date = b.date))

/-- Projection returned by `get_city_data`
(`SELECT DISTINCT date, temperature_max, temperature_min, rain_sum, sunshine_duration`). -/
structure OutRow where
  date : Date
  temperature_max : Int
  temperature_min : Int
  rain_sum : Int
  sunshine_duration : Int
deriving DecidableEq, Repr

/-- First-occurrence deduplication with an accumulator of already seen
elements; `distinct` below models SQL `DISTINCT`. -/
def distinctAux [DecidableEq α] (seen : List α) : List α → List α
  | [] => []
  | a :: l => if a ∈ seen then distinctAux seen l else a :: distinctAux (a :: seen) l

/-- SQL `DISTINCT` over a result list. -/
def distinct [DecidableEq α] (l : List α) : List α := distinctAux [] l

/-- Result of geocoding (`get_city_coordinates`). -/
structure Coordinates where
  name : String
  country : String
  latitude : Int
  longitude : Int
deriving DecidableEq, Repr

/-- The `daily` arrays of an archive-API response, positionally aligned. -/
structure DailyData where
  time : List Date
  temperature_2m_max : List Int
  temperature_2m_min : List Int
  rain_sum : List Int
  sunshine_duration : List Int
deriving DecidableEq, Repr

/-- Classification of a `mysql.connector.Error` raised by the insert
statement: errno 1062 (duplicate entry) versus anything else. -/
inductive DbErr where
  | duplicateKey
  | otherErr
deriving DecidableEq, Repr

/-- Observable side-effect events of one orchestration run. -/
inductive Event where
  | checkRange (s e : Date)
  | checkYear (y : Nat)
  | resolveCall (city : String)
  | archiveCall (s e : Date)
deriving DecidableEq, Repr

/-- Number of outbound network calls in a trace (geocoding plus archive). -/
def netCalls (evs : List Event) : Nat :=
  evs.countP fun ev =>
    match ev with
    | .resolveCall _ => true
    | .archiveCall _ _ => true
    | _ => false

/-- Extract the year of a per-year completeness check event. -/
def Event.yearChecked : Event → Option Nat
  | .checkYear y => some y
  | _ => none

/-- External world and failure injection for one run. -/
structure Env where
  connOk : Bool
  queryExc : Bool
  resolve : String → Option Coordinates
  archive : Coordinates → Date → Date → Option DailyData
  execErr : WRecord → Option DbErr

/-- Counterpart of `create_connection`: the connection exposes the table
when it can be created at all. -/
def create_connection (env : Env) (store : Store) : Option Store :=
  if env.connOk then some store else none

/-- Value of `SELECT COUNT(DISTINCT date) FROM weather_data WHERE city = %s
AND YEAR(date) = %s` (used by `check_year_completeness`). -/
def countDistinctDatesForYear (store : Store) (city : String) (year : Nat) : Nat :=
  (distinct ((store.filter fun row =>
    decide (row.city = city) && decide (row.date.year = year)).map (·.date))).length

/-- Membership of a date in `date BETWEEN %s AND %s`. -/
def inRange (d s e : Date) : Bool :=
  decide (s.code ≤ d.code) && decide (d.code ≤ e.code)

/-- Value of `SELECT COUNT(DISTINCT date) FROM weather_data WHERE city = %s
AND date BETWEEN %s AND %s` (used by `check_date_range_coverage`). -/
def countDistinctDatesInRange (store : Store) (city : String) (s e : Date) : Nat :=
  (distinct ((store.filter fun row =>
    decide (row.city = city) && inRange row.date s e).map (·.date))).length

/-- `check_year_completeness` from `database_helper.py`: `False` when the
connection cannot be created or the query raises, otherwise
`count >= 360`. -/
def check_year_completeness (conn : Option Store) (qexc : Bool)
    (city : String) (year : Nat) : Bool :=
  match conn with
  | none => false
  | some store =>
    if qexc then false
    else decide (360 ≤ countDistinctDatesForYear store city year)

/-- `check_date_range_coverage` from `database_helper.py`: `False` on
connection/query failure, otherwise `coverage_ratio >= 0.8` where
`coverage_ratio = count / expected_days if expected_days > 0 else 0`. -/
def check_date_range_coverage (conn : Option Store) (qexc : Bool)
    (city : String) (s e : Date) : Bool :=
  match conn with
  | none => false
  | some store =>
    if qexc then false
    else
      let count := countDistinctDatesInRange store city s e
      let expected := expectedDays s e
      let coverageRatioQ : ℚ :=
        if 0 < expected then Rat.divInt (count : Int) expected else 0
      decide (mkRat 4 5 ≤ coverageRatioQ)

/-- `has_complete_year_data` from `fetching_data/database.py`: compares the
distinct-date count for the `year` column against the exact expected day
count (365/366). -/
def has_complete_year_data (store : Store) (city : String) (year : Nat) : Bool :=
  decide ((distinct ((store.filter fun row =>
    decide (row.city = city) && decide (row.year = year)).map (·.date))).length
      = expectedDaysInYear year)

/-- Order on the projected rows used to model `ORDER BY date`. -/
def outRowLe (a b : OutRow) : Prop := a.date.code ≤ b.date.code

instance : DecidableRel outRowLe := fun a b =>
  inferInstanceAs (Decidable (a.date.code ≤ b.date.code))

instance : IsTotal OutRow outRowLe := ⟨fun _ _ => Nat.le_total _ _⟩

instance : IsTrans OutRow outRowLe := ⟨fun _ _ _ => Nat.le_trans⟩

/-- Projection of a table row to the columns selected by `get_city_data`. -/
def toOutRow (row : Row) : OutRow :=
  ⟨row.date, row.temperature_max, row.temperature_min, row.rain_sum, row.sunshine_duration⟩

/-- `get_city_data(city, start, end)` (the ranged branch used by the
orchestrator): `[]` on connection or query failure, otherwise
`SELECT DISTINCT date, temperature_max, temperature_min, rain_sum,
sunshine_duration WHERE city = %s AND date BETWEEN %s AND %s ORDER BY date`. -/
def get_city_data (conn : Option Store) (qexc : Bool)
    (city : String) (s e : Date) : List OutRow :=
  match conn with
  | none => []
  | some store =>
    if qexc then []
    else
      List.insertionSort outRowLe
        (distinct ((store.filter fun row =>
          decide (row.city = city) && inRange row.date s e).map toOutRow))

/-- `years = list(range(start_year, end_year + 1))` from
`get_year_range_from_date_range` (the year is the `-`-separated prefix of
the date string, i.e. the date's year field). -/
def get_year_range_from_date_range (s e : Date) : List Nat :=
  List.range' s.year (e.year + 1 - s.year)

/-- The per-index reshaping loop of `fetch_weather_data` /
`fetch_weather_data_for_year`: `for i in range(len(daily['time']))`, skip a
date already in `seen_dates`, otherwise read the four measurement arrays at
index `i` and append one record.  The index loop over positionally aligned
arrays is rendered as a parallel traversal; an out-of-range measurement
access (`IndexError`, caught by the enclosing `except`) is `none`, and on a
skipped date the measurement arrays are not read, as in the source. -/
def processDailyGo (coords : Coordinates) :
    List Date → List Date → List Int → List Int → List Int → List Int →
      Option (List WRecord)
  | _, [], _, _, _, _ => some []
  | seen, t :: ts, tmaxs, tmins, rains, suns =>
    if t ∈ seen then
      processDailyGo coords seen ts tmaxs.tail tmins.tail rains.tail suns.tail
    else
      match tmaxs, tmins, rains, suns with
      | a :: as, b :: bs, c :: cs, d :: ds =>
        match processDailyGo coords (t :: seen) ts as bs cs ds with
        | none => none
        | some rest =>
          some (⟨coords.name, coords.country, t, a, b, c, d,
                 coords.latitude, coords.longitude⟩ :: rest)
      | _, _, _, _ => none

/-- Reshape one archive response into records, deduplicating by date within
the response (`seen_dates` starts empty). -/
def processDaily (coords : Coordinates) (dd : DailyData) : Option (List WRecord) :=
  processDailyGo coords [] dd.time dd.temperature_2m_max dd.temperature_2m_min
    dd.rain_sum dd.sunshine_duration

/-- `fetch_weather_data(city, start, end)`: resolve coordinates (one
geocoding step), then one archive call over the exact range; `none` models
every `return None` path (no coordinates, missing `daily` field, processing
exception).  The first component records the outbound network calls. -/
def fetch_weather_data (env : Env) (city : String) (s e : Date) :
    List Event × Option (List WRecord) :=
  match env.resolve city with
  | none => ([.resolveCall city], none)
  | some coords =>
    ([.resolveCall city, .archiveCall s e],
     match env.archive coords s e with
     | none => none
     | some dd => processDaily coords dd)

/-- `fetch_weather_data_for_year(city, year)`: `fetch_weather_data`
specialised to `[year-01-01, year-12-31]`. -/
def fetch_weather_data_for_year (env : Env) (city : String) (year : Nat) :
    List Event × Option (List WRecord) :=
  fetch_weather_data env city ⟨year, 1, 1⟩ ⟨year, 12, 31⟩

/-- Conversion of a fetched record into a table row; the `year` column is
`int(record['date'].split('-')[0])`, the date's year. -/
def toRow (r : WRecord) : Row :=
  ⟨r.city, r.country, r.date, r.temperature_max, r.temperature_min,
   r.rain_sum, r.sunshine_duration, r.date.year, r.latitude, r.longitude⟩

/-- The `(city, date)` key comparison of the unique constraint. -/
def keyMatches (row : Row) (city : String) (date : Date) : Bool :=
  decide (row.city = city) && decide (row.date = date)

/-- Whether the `ON DUPLICATE KEY UPDATE` clause would change nothing
(all four measurement columns already equal). -/
def measurementsEqual (row : Row) (r : WRecord) : Bool :=
  decide (row.temperature_max = r.temperature_max)
    && decide (row.temperature_min = r.temperature_min)
    && decide (row.rain_sum = r.rain_sum)
    && decide (row.sunshine_duration = r.sunshine_duration)

/-- `ON DUPLICATE KEY UPDATE`: overwrite only the four measurement columns,
leaving key, country, year and coordinates untouched. -/
def updateMeasurements (row : Row) (r : WRecord) : Row :=
  { row with
    temperature_max := r.temperature_max
    temperature_min := r.temperature_min
    rain_sum := r.rain_sum
    sunshine_duration := r.sunshine_duration }

/-- One `INSERT .. ON DUPLICATE KEY UPDATE` execution: returns the new table
and the driver rowcount (1 insert, 2 update, 0 when the row is unchanged). -/
def upsertRow (store : Store) (r : WRecord) : Store × Nat :=
  match store.find? (fun row => keyMatches row r.city r.date) with
  | none => (store ++ [toRow r], 1)
  | some old =>
    if measurementsEqual old r then (store, 0)
    else
      (store.map fun row =>
        if keyMatches row r.city r.date then updateMeasurements row r else row, 2)

/-- The per-record loop of `store_weather_data` with its rowcount
bookkeeping: errno 1062 increments `skipped_count`, any other driver error
re-raises (propagating to the enclosing handler, which rolls back), and a
successful statement updates the counters by rowcount. -/
def upsertLoop (errf : WRecord → Option DbErr) :
    Store → Nat → Nat → Nat → List WRecord → Option (Store × Nat × Nat × Nat)
  | store, ins, upd, skip, [] => some (store, ins, upd, skip)
  | store, ins, upd, skip, r :: rest =>
    match errf r with
    | some .duplicateKey => upsertLoop errf store ins upd (skip + 1) rest
    | some .otherErr => none
    | none =>
      let step := upsertRow store r
      if step.2 = 1 then upsertLoop errf step.1 (ins + 1) upd skip rest
      else if step.2 = 2 then upsertLoop errf step.1 ins (upd + 1) skip rest
      else upsertLoop errf step.1 ins upd (skip + 1) rest

/-- Outcome of `store_weather_data`: the table after commit or rollback, the
boolean return value, and the printed `(inserted, updated, skipped)` summary
(`none` when the error handler ran and no summary was produced). -/
structure UpsertOutcome where
  store : Store
  ret : Bool
  report : Option (Nat × Nat × Nat)
deriving DecidableEq, Repr

/-- `store_weather_data(weather_data)`: `False` on an empty batch or a failed
connection; on a non-1062 driver error the whole uncommitted batch is rolled
back and `False` returned; otherwise the batch commits and the return value
is `inserted_count > 0 or updated_count > 0`. -/
def store_weather_data (connOk : Bool) (errf : WRecord → Option DbErr)
    (store : Store) (batch : List WRecord) : UpsertOutcome :=
  if batch.isEmpty then ⟨store, false, none⟩
  else if !connOk then ⟨store, false, none⟩
  else
    match upsertLoop errf store 0 0 0 batch with
    | none => ⟨store, false, none⟩
    | some (st, i, u, k) => ⟨st, decide (0 < i) || decide (0 < u), some (i, u, k)⟩

/-- `ensure_date_range_data(city, start, end)`: succeed immediately when the
coverage check passes, otherwise fetch the exact range and store it;
`False` whenever the fetch yields nothing or the store reports failure. -/
def ensure_date_range_data (env : Env) (store : Store) (city : String)
    (s e : Date) : Store × List Event × Bool :=
  if check_date_range_coverage (create_connection env store) env.queryExc city s e then
    (store, [.checkRange s e], true)
  else
    let f := fetch_weather_data env city s e
    match f.2 with
    | none => (store, .checkRange s e :: f.1, false)
    | some ws =>
      if ws.isEmpty then (store, .checkRange s e :: f.1, false)
      else
        let out := store_weather_data env.connOk env.execErr store ws
        (out.store, .checkRange s e :: f.1, out.ret)

/-- `ensure_year_data(city, year)`: succeed immediately when the year is
complete, otherwise fetch the whole year and store it. -/
def ensure_year_data (env : Env) (store : Store) (city : String)
    (year : Nat) : Store × List Event × Bool :=
  if check_year_completeness (create_connection env store) env.queryExc city year then
    (store, [.checkYear year], true)
  else
    let f := fetch_weather_data_for_year env city year
    match f.2 with
    | none => (store, .checkYear year :: f.1, false)
    | some ws =>
      if ws.isEmpty then (store, .checkYear year :: f.1, false)
      else
        let out := store_weather_data env.connOk env.execErr store ws
        (out.store, .checkYear year :: f.1, out.ret)

/-- Result of one `get_or_fetch_city_data` run: final table, event trace,
and the returned record list. -/
structure OrchResult where
  store : Store
  events : List Event
  data : List OutRow
deriving Repr

/-- `get_or_fetch_city_data(city, start, end)`: ensure range coverage
(continuing on failure), ensure completeness of every year of the range
(continuing on failure), then read and return the exact range; the final
`if data: return data else: return []` returns the read result either way. -/
def get_or_fetch_city_data (env : Env) (store : Store) (city : String)
    (s e : Date) : OrchResult :=
  let r1 := ensure_date_range_data env store city s e
  let years := get_year_range_from_date_range s e
  let r2 := years.foldl
    (fun (acc : Store × List Event) y =>
      ((ensure_year_data env acc.1 city y).1,
       acc.2 ++ (ensure_year_data env acc.1 city y).2.1))
    (r1.1, r1.2.1)
  { store := r2.1
    events := r2.2
    data := get_city_data (create_connection env r2.1) env.queryExc city s e }

/-! Basic facts about `distinct`. -/

theorem distinctAux_sublist [DecidableEq α] (seen : List α) :
    ∀ l : List α, List.Sublist (distinctAux seen l) l
  | [] => List.Sublist.refl []
  | a :: l => by
    unfold distinctAux
    by_cases h : a ∈ seen
    · simp only [h, if_true]
      exact (distinctAux_sublist seen l).cons a
    · simp only [h, if_false]
      exact (distinctAux_sublist (a :: seen) l).cons₂ a

theorem distinct_sublist [DecidableEq α] (l : List α) : List.Sublist (distinct l) l :=
  distinctAux_sublist [] l

theorem distinctAux_eq_self [DecidableEq α] (seen : List α) (l : List α)
    (hnd : l.Nodup) (hdisj : ∀ a ∈ l, a ∉ seen) : distinctAux seen l = l := by
  induction l generalizing seen with
  | nil => rfl
  | cons a l ih =>
    unfold distinctAux
    have ha : a ∉ seen := hdisj a (by simp)
    simp only [ha, if_false]
    have hnd' := (List.nodup_cons.mp hnd).2
    have hha := (List.nodup_cons.mp hnd).1
    rw [ih (a :: seen) hnd']
    intro b hb
    simp only [List.mem_cons]
    rintro (rfl | hbs)
    · exact hha hb
    · exact hdisj b (List.mem_cons_of_mem a hb) hbs

theorem distinct_eq_self_of_nodup [DecidableEq α] (l : List α) (hnd : l.Nodup) :
    distinct l = l :=
  distinctAux_eq_self [] l hnd (by simp)

theorem distinctAux_eq_nil [DecidableEq α] (seen : List α) (l : List α)
    (h : distinctAux seen l = []) : ∀ a ∈ l, a ∈ seen := by
  induction l generalizing seen with
  | nil => simp
  | cons a l ih =>
    intro b hb
    unfold distinctAux at h
    by_cases ha : a ∈ seen
    · simp only [ha, if_true] at h
      rcases List.mem_cons.mp hb with rfl | hbl
      · exact ha
      · exact ih seen h b hbl
    · simp only [ha, if_false] at h
      cases h

theorem distinct_eq_nil [DecidableEq α] (l : List α)
    (h : distinct l = []) : l = [] := by
  cases l with
  | nil => rfl
  | cons a l => exact absurd (distinctAux_eq_nil [] _ h a (by simp)) (by simp)

/-- Executable check that a list of naturals is strictly increasing. -/
def strictlyIncreasing : List Nat → Bool
  | [] => true
  | [_] => true
  | a :: b :: l => decide (a < b) && strictlyIncreasing (b :: l)

theorem chain_of_strictlyIncreasing :
    ∀ l : List Nat, strictlyIncreasing l = true → l.Chain' (· < ·)
  | [] => fun _ => List.chain'_nil
  | [_] => fun _ => List.chain'_singleton _
  | a :: b :: l => by
    intro h
    unfold strictlyIncreasing at h
    rw [Bool.and_eq_true, decide_eq_true_eq] at h
    exact List.Chain'.cons h.1 (chain_of_strictlyIncreasing (b :: l) h.2)

/-- A strictly increasing list of date codes comes from a duplicate-free
list of dates (used to discharge concrete witnesses without quadratic
kernel evaluation). -/
theorem nodup_of_codes_chain (l : List Date)
    (h : strictlyIncreasing (l.map Date.code) = true) : l.Nodup := by
  have hp : (l.map Date.code).Pairwise (· < ·) :=
    List.chain'_iff_pairwise.mp (chain_of_strictlyIncreasing _ h)
  exact List.Nodup.of_map Date.code (hp.imp Nat.ne_of_lt)

/-! Concrete stores used by boundary witnesses. -/

/-- Lengths of the twelve months. -/
def monthLengths (leap : Bool) : List Nat :=
  [31, if leap then 29 else 28, 31, 30, 31, 30, 31, 31, 30, 31, 30, 31]

/-- All dates of a calendar year in order. -/
def yearDates (year : Nat) : List Date :=
  (List.range 12).flatMap fun m =>
    (List.range ((monthLengths (is_leap_year year)).getD m 0)).map fun d =>
      ⟨year, m + 1, d + 1⟩

/-- A sample table row for a given city and date. -/
def sampleRow (city : String) (d : Date) : Row :=
  ⟨city, "F", d, 10, 2, 0, 3600, d.year, 48, 2⟩

/-- A store holding the first `n` days of 2024 for city `"P"`. -/
def store2024at (n : Nat) : Store :=
  ((yearDates 2024).take n).map (sampleRow "P")

theorem yearDates_year (y : Nat) : ∀ d ∈ yearDates y, d.year = y := by
  intro d hd
  simp only [yearDates, List.mem_flatMap, List.mem_map, List.mem_range] at hd
  obtain ⟨m, _, d', _, rfl⟩ := hd
  rfl

theorem yearDates_nodup (y : Nat)
    (h : strictlyIncreasing ((yearDates y).map Date.code) = true) :
    (yearDates y).Nodup := nodup_of_codes_chain _ h

theorem count_store2024at (n : Nat) (hn : n ≤ 366) :
    countDistinctDatesForYear (store2024at n) "P" 2024 = n := by
  unfold countDistinctDatesForYear store2024at
  have hfil : ∀ row ∈ ((yearDates 2024).take n).map (sampleRow "P"),
      (decide (row.city = "P") && decide (row.date.year = 2024)) = true := by
    intro row hrow
    obtain ⟨d, hd, rfl⟩ := List.mem_map.mp hrow
    have : d.year = 2024 := yearDates_year 2024 d (List.mem_of_mem_take hd)
    simp [sampleRow, this]
  rw [List.filter_eq_self.mpr hfil, List.map_map]
  have hmap : ((yearDates 2024).take n).map ((·.date) ∘ sampleRow "P")
      = (yearDates 2024).take n := by
    apply List.map_id''
    intro d
    rfl
  rw [hmap]
  have hnodup : ((yearDates 2024).take n).Nodup :=
    ((yearDates_nodup 2024 (by decide)).sublist (List.take_sublist n _))
  rw [distinct_eq_self_of_nodup _ hnodup, List.length_take]
  have : (yearDates 2024).length = 366 := by decide
  omega

/-- Claim C1.  `isYearComplete` (`check_year_completeness`) is true exactly
when the distinct-date count for the (city, year) pair is at least 360; at
a count of exactly 360 it is true, at 359 false, and the threshold is not
the exact expected day count (2024 expects 366 days yet 360 is complete). -/
theorem claim1_year_completeness_threshold :
    (∀ (store : Store) (city : String) (year : Nat),
        check_year_completeness (some store) false city year = true
          ↔ 360 ≤ countDistinctDatesForYear store city year)
    ∧ countDistinctDatesForYear (store2024at 360) "P" 2024 = 360
    ∧ check_year_completeness (some (store2024at 360)) false "P" 2024 = true
    ∧ countDistinctDatesForYear (store2024at 359) "P" 2024 = 359
    ∧ check_year_completeness (some (store2024at 359)) false "P" 2024 = false
    ∧ expectedDaysInYear 2024 = 366 := by
  have hiff : ∀ (store : Store) (city : String) (year : Nat),
      check_year_completeness (some store) false city year = true
        ↔ 360 ≤ countDistinctDatesForYear store city year := by
    intro store city year
    simp [check_year_completeness]
  refine ⟨hiff, count_store2024at 360 (by omega), ?_, count_store2024at 359 (by omega), ?_, rfl⟩
  · rw [hiff, count_store2024at 360 (by omega)]
  · rw [Bool.eq_false_iff]
    intro h
    rw [hiff, count_store2024at 359 (by omega)] at h
    omega

/-- Claim C3.  `hasRangeCoverage` (`check_date_range_coverage`) is true
exactly when the expected day count is positive and the coverage ratio
`count / expectedDays` is at least `4/5`; when `expectedDays ≤ 0` the ratio
is taken as `0` and the result is false (no division is attempted). -/
theorem check_coverage_eq (store : Store) (city : String) (s e : Date) :
    check_date_range_coverage (some store) false city s e
      = decide (mkRat 4 5 ≤
          if 0 < expectedDays s e
          then Rat.divInt (countDistinctDatesInRange store city s e : Int) (expectedDays s e)
          else 0) := rfl

theorem mkRat_four_five : (mkRat 4 5 : ℚ) = (4 : ℚ) / 5 := by
  rw [Rat.mkRat_eq_div]
  norm_num

theorem divInt_count_expected (c : Nat) (ed : Int) :
    Rat.divInt (c : Int) ed = (c : ℚ) / (ed : ℚ) := by
  rw [Rat.divInt_eq_div]
  norm_num

theorem claim3_range_coverage_threshold :
    (∀ (store : Store) (city : String) (s e : Date),
        check_date_range_coverage (some store) false city s e = true
          ↔ 0 < expectedDays s e ∧
            (4 : ℚ) / 5 ≤ (countDistinctDatesInRange store city s e : ℚ)
              / (expectedDays s e : ℚ))
    ∧ ∀ (store : Store) (city : String) (s e : Date),
        expectedDays s e ≤ 0 →
          check_date_range_coverage (some store) false city s e = false := by
  constructor
  · intro store city s e
    by_cases h : 0 < expectedDays s e
    · rw [check_coverage_eq, if_pos h, decide_eq_true_eq,
        mkRat_four_five, divInt_count_expected]
      simp [h]
    · rw [check_coverage_eq, if_neg h, decide_eq_true_eq, mkRat_four_five]
      constructor
      · intro hc
        exact absurd hc (by norm_num)
      · rintro ⟨h0, _⟩
        exact absurd h0 h
  · intro store city s e h
    have h' : ¬ 0 < expectedDays s e := by omega
    rw [check_coverage_eq, if_neg h', decide_eq_false_iff_not, mkRat_four_five]
    norm_num

/-- Witness for claim C3 at a concrete reversed range (`expectedDays = 0`). -/
theorem claim3_witness :
    check_date_range_coverage (some []) false "P" ⟨2020, 1, 2⟩ ⟨2020, 1, 1⟩ = false :=
  claim3_range_coverage_threshold.2 [] "P" ⟨2020, 1, 2⟩ ⟨2020, 1, 1⟩ (by decide)

theorem resolveCall_mem_fetch_events (env : Env) (city : String) (s e : Date) :
    Event.resolveCall city ∈ (fetch_weather_data env city s e).1 := by
  unfold fetch_weather_data
  cases h : env.resolve city <;> simp [h]

/-- Events of one `ensure_year_data` step: always the completeness check,
followed by the fetch trace when the check failed. -/
theorem ensure_year_data_events (env : Env) (store : Store) (city : String)
    (year : Nat) :
    (ensure_year_data env store city year).2.1 =
      if check_year_completeness (create_connection env store) env.queryExc city year
      then [.checkYear year]
      else .checkYear year :: (fetch_weather_data_for_year env city year).1 := by
  unfold ensure_year_data
  by_cases hc : check_year_completeness (create_connection env store) env.queryExc city year
  · simp [hc]
  · rcases h2 : (fetch_weather_data_for_year env city year).2 with _ | ws
    · simp [hc, h2]
    · by_cases hw : ws.isEmpty <;> simp [hc, h2, hw]

/-- Events of one `ensure_date_range_data` step. -/
theorem ensure_date_range_data_events (env : Env) (store : Store) (city : String)
    (s e : Date) :
    (ensure_date_range_data env store city s e).2.1 =
      if check_date_range_coverage (create_connection env store) env.queryExc city s e
      then [.checkRange s e]
      else .checkRange s e :: (fetch_weather_data env city s e).1 := by
  unfold ensure_date_range_data
  by_cases hc : check_date_range_coverage (create_connection env store) env.queryExc city s e
  · simp [hc]
  · rcases h2 : (fetch_weather_data env city s e).2 with _ | ws
    · simp [hc, h2]
    · by_cases hw : ws.isEmpty <;> simp [hc, h2, hw]

/-- Claim C10.  When the connection cannot be created or the count query
raises, both completeness oracles answer `false` rather than raising; with a
dead connection the ensure steps therefore proceed to the fetch attempt
(a geocoding call is issued). -/
theorem claim10_storage_failure_means_insufficient :
    ∀ (store : Store) (city : String) (year : Nat) (s e : Date)
      (resf : String → Option Coordinates)
      (archf : Coordinates → Date → Date → Option DailyData)
      (errf : WRecord → Option DbErr),
      check_year_completeness none false city year = false
      ∧ check_year_completeness none true city year = false
      ∧ check_year_completeness (some store) true city year = false
      ∧ check_date_range_coverage none false city s e = false
      ∧ check_date_range_coverage none true city s e = false
      ∧ check_date_range_coverage (some store) true city s e = false
      ∧ Event.resolveCall city ∈
          (ensure_year_data ⟨false, false, resf, archf, errf⟩ store city year).2.1
      ∧ Event.resolveCall city ∈
          (ensure_date_range_data ⟨false, false, resf, archf, errf⟩ store city s e).2.1 := by
  intro store city year s e resf archf errf
  refine ⟨rfl, rfl, rfl, rfl, rfl, rfl, ?_, ?_⟩
  · rw [ensure_year_data_events]
    rw [if_neg (by simp [create_connection, check_year_completeness])]
    exact List.mem_cons_of_mem _
      (resolveCall_mem_fetch_events ⟨false, false, resf, archf, errf⟩ city _ _)
  · rw [ensure_date_range_data_events]
    rw [if_neg (by simp [create_connection, check_date_range_coverage])]
    exact List.mem_cons_of_mem _
      (resolveCall_mem_fetch_events ⟨false, false, resf, archf, errf⟩ city s e)

theorem fetch_events_no_yearChecked (env : Env) (city : String) (s e : Date) :
    ((fetch_weather_data env city s e).1).filterMap Event.yearChecked = [] := by
  unfold fetch_weather_data
  cases h : env.resolve city <;> simp [h, Event.yearChecked]

theorem ensure_year_data_yearChecked (env : Env) (store : Store) (city : String)
    (year : Nat) :
    ((ensure_year_data env store city year).2.1).filterMap Event.yearChecked = [year] := by
  rw [ensure_year_data_events]
  split
  · simp [Event.yearChecked]
  · simp only [List.filterMap_cons]
    rw [show Event.yearChecked (.checkYear year) = some year from rfl]
    unfold fetch_weather_data_for_year
    rw [fetch_events_no_yearChecked]

theorem ensure_date_range_data_yearChecked (env : Env) (store : Store)
    (city : String) (s e : Date) :
    ((ensure_date_range_data env store city s e).2.1).filterMap Event.yearChecked = [] := by
  rw [ensure_date_range_data_events]
  split
  · simp [Event.yearChecked]
  · simp only [List.filterMap_cons]
    rw [show Event.yearChecked (.checkRange s e) = none from rfl]
    rw [fetch_events_no_yearChecked]

theorem fold_years_events (env : Env) (city : String) :
    ∀ (ys : List Nat) (st : Store) (evs : List Event),
      (((ys.foldl (fun (acc : Store × List Event) y =>
          ((ensure_year_data env acc.1 city y).1,
           acc.2 ++ (ensure_year_data env acc.1 city y).2.1)) (st, evs))).2).filterMap
            Event.yearChecked
        = evs.filterMap Event.yearChecked ++ ys
  | [], st, evs => by simp
  | y :: ys, st, evs => by
    simp only [List.foldl_cons]
    rw [fold_years_events env city ys _ _]
    rw [List.filterMap_append, ensure_year_data_yearChecked]
    simp

/-- Claim C8.  One orchestration run performs the per-year completeness
check (and hence the potential year backfill) for exactly the years from
the start date's year through the end date's year, inclusive, whatever the
environment does — in particular a failing fetch on one year does not
remove later years from the trace. -/
theorem claim8_years_processed (env : Env) (store : Store) (city : String)
    (s e : Date) :
    ((get_or_fetch_city_data env store city s e).events.filterMap Event.yearChecked)
      = get_year_range_from_date_range s e
    ∧ ∀ y : Nat, y ∈ get_year_range_from_date_range s e ↔ (s.year ≤ y ∧ y ≤ e.year) := by
  constructor
  · show (((get_year_range_from_date_range s e).foldl _
        ((ensure_date_range_data env store city s e).1,
         (ensure_date_range_data env store city s e).2.1)).2).filterMap
        Event.yearChecked = _
    rw [fold_years_events, ensure_date_range_data_yearChecked, List.nil_append]
  · intro y
    unfold get_year_range_from_date_range
    rw [List.mem_range'_1]
    omega

theorem get_city_data_nil_of_count (conn : Option Store) (qexc : Bool)
    (city : String) (s e : Date)
    (h : ∀ st, conn = some st → countDistinctDatesInRange st city s e = 0) :
    get_city_data conn qexc city s e = [] := by
  cases conn with
  | none => rfl
  | some st =>
    by_cases hq : qexc
    · simp [get_city_data, hq]
    · have hc := h st rfl
      unfold countDistinctDatesInRange at hc
      rw [List.length_eq_zero] at hc
      have hfil : st.filter
          (fun row => decide (row.city = city) && inRange row.date s e) = [] :=
        List.map_eq_nil_iff.mp (distinct_eq_nil _ hc)
      simp [get_city_data, hq, hfil, distinct, distinctAux]

/-- Claim C5.  `ensureAndRead` returns the range read of the final store
(it is a total function of the environment: every resolver, fetch or
storage failure is absorbed by the source's handlers), and when the store
still holds nothing for the requested range after the best-effort fetches,
the result is the empty list rather than an error. -/
theorem claim5_best_effort_empty (env : Env) (store : Store) (city : String)
    (s e : Date) :
    (get_or_fetch_city_data env store city s e).data
      = get_city_data
          (create_connection env (get_or_fetch_city_data env store city s e).store)
          env.queryExc city s e
    ∧ (countDistinctDatesInRange
          (get_or_fetch_city_data env store city s e).store city s e = 0 →
        (get_or_fetch_city_data env store city s e).data = []) := by
  refine ⟨rfl, ?_⟩
  intro h0
  show get_city_data _ env.queryExc city s e = []
  apply get_city_data_nil_of_count
  intro st hst
  unfold create_connection at hst
  by_cases hc : env.connOk
  · rw [if_pos hc] at hst
    cases hst
    exact h0
  · rw [if_neg hc] at hst
    cases hst

/-- Witness for claim C5: with a resolver that never finds the city and an
empty store, the run returns the empty list. -/
theorem claim5_witness :
    (get_or_fetch_city_data
        ⟨true, false, fun _ => none, fun _ _ _ => none, fun _ => none⟩
        [] "P" ⟨2020, 1, 1⟩ ⟨2020, 1, 2⟩).data = [] :=
  (claim5_best_effort_empty
    ⟨true, false, fun _ => none, fun _ _ _ => none, fun _ => none⟩
    [] "P" ⟨2020, 1, 1⟩ ⟨2020, 1, 2⟩).2 (by decide)

/-! Infrastructure for claim C4: when the store is already sufficient, the
orchestrator mutates nothing and performs no network call. -/

theorem fold_years_noop (env : Env) (city : String) :
    ∀ (ys : List Nat) (st : Store) (evs : List Event),
      (∀ y ∈ ys,
        check_year_completeness (create_connection env st) env.queryExc city y = true) →
      ys.foldl (fun (acc : Store × List Event) y =>
          ((ensure_year_data env acc.1 city y).1,
           acc.2 ++ (ensure_year_data env acc.1 city y).2.1)) (st, evs)
        = (st, evs ++ ys.map Event.checkYear)
  | [], st, evs, _ => by simp
  | y :: ys, st, evs, h => by
    simp only [List.foldl_cons]
    have hy := h y (by simp)
    have hstep : ensure_year_data env st city y = (st, [.checkYear y], true) := by
      unfold ensure_year_data
      rw [if_pos hy]
    rw [hstep]
    show List.foldl _ (st, evs ++ [Event.checkYear y]) ys = _
    rw [fold_years_noop env city ys st (evs ++ [Event.checkYear y])
      (fun z hz => h z (by simp [hz]))]
    simp

theorem sufficient_noop (env : Env) (store : Store) (city : String) (s e : Date)
    (hcov : check_date_range_coverage (create_connection env store)
        env.queryExc city s e = true)
    (hyr : ∀ y ∈ get_year_range_from_date_range s e,
        check_year_completeness (create_connection env store) env.queryExc city y = true) :
    get_or_fetch_city_data env store city s e =
      ⟨store,
       .checkRange s e :: (get_year_range_from_date_range s e).map Event.checkYear,
       get_city_data (create_connection env store) env.queryExc city s e⟩ := by
  unfold get_or_fetch_city_data
  have h1 : ensure_date_range_data env store city s e
      = (store, [.checkRange s e], true) := by
    unfold ensure_date_range_data
    rw [if_pos hcov]
  rw [h1]
  show (⟨_, _, _⟩ : OrchResult) = _
  rw [show ((store, [Event.checkRange s e], true).1,
        (store, [Event.checkRange s e], true).2.1)
      = ((store : Store), [Event.checkRange s e]) from rfl]
  rw [fold_years_noop env city _ store [.checkRange s e] hyr]
  rfl

theorem netCalls_checks (s e : Date) (ys : List Nat) :
    netCalls (.checkRange s e :: ys.map Event.checkYear) = 0 := by
  unfold netCalls
  rw [List.countP_cons]
  simp only [List.countP_map]
  rw [List.countP_eq_zero.mpr (by intro y hy; simp [Function.comp])]
  simp

/-- Claim C4.  If one run leaves the store sufficient (adequate range
coverage and every overlapped year complete), a second run with identical
arguments performs zero resolver/fetch network calls, leaves the store
untouched and returns exactly the first run's result set. -/
theorem claim4_idempotent_when_sufficient (env : Env) (store : Store)
    (city : String) (s e : Date)
    (hcov : check_date_range_coverage
        (create_connection env (get_or_fetch_city_data env store city s e).store)
        env.queryExc city s e = true)
    (hyr : ∀ y ∈ get_year_range_from_date_range s e,
        check_year_completeness
          (create_connection env (get_or_fetch_city_data env store city s e).store)
          env.queryExc city y = true) :
    netCalls (get_or_fetch_city_data env
        (get_or_fetch_city_data env store city s e).store city s e).events = 0
    ∧ (get_or_fetch_city_data env
        (get_or_fetch_city_data env store city s e).store city s e).data
        = (get_or_fetch_city_data env store city s e).data
    ∧ (get_or_fetch_city_data env
        (get_or_fetch_city_data env store city s e).store city s e).store
        = (get_or_fetch_city_data env store city s e).store := by
  rw [sufficient_noop env _ city s e hcov hyr]
  exact ⟨netCalls_checks s e _, rfl, rfl⟩

/-! Concrete sufficient store for the claim C4 witness: the full year 2020
for city `"P"`, with an environment whose network never answers. -/

/-- The full year 2020 stored for `"P"`. -/
def store2020full : Store := (yearDates 2020).map (sampleRow "P")

/-- A healthy database connection, but a dead network. -/
def env4 : Env := ⟨true, false, fun _ => none, fun _ _ _ => none, fun _ => none⟩

theorem map_dates_sampleRow (c : String) (l : List Date) :
    (l.map (sampleRow c)).map (·.date) = l := by
  rw [List.map_map]
  apply List.map_id''
  intro d
  rfl

theorem count_year_store2020 :
    countDistinctDatesForYear store2020full "P" 2020 = 366 := by
  unfold countDistinctDatesForYear store2020full
  have hfil : ∀ row ∈ (yearDates 2020).map (sampleRow "P"),
      (decide (row.city = "P") && decide (row.date.year = 2020)) = true := by
    intro row hrow
    obtain ⟨d, hd, rfl⟩ := List.mem_map.mp hrow
    have := yearDates_year 2020 d hd
    simp [sampleRow, this]
  rw [List.filter_eq_self.mpr hfil, map_dates_sampleRow]
  rw [distinct_eq_self_of_nodup _ (yearDates_nodup 2020 (by decide))]
  decide

theorem count_range_store2020 :
    countDistinctDatesInRange store2020full "P" ⟨2020, 1, 1⟩ ⟨2020, 12, 31⟩ = 366 := by
  unfold countDistinctDatesInRange store2020full
  have hfil : ∀ row ∈ (yearDates 2020).map (sampleRow "P"),
      (decide (row.city = "P")
        && inRange row.date ⟨2020, 1, 1⟩ ⟨2020, 12, 31⟩) = true := by
    intro row hrow
    obtain ⟨d, hd, rfl⟩ := List.mem_map.mp hrow
    simp only [yearDates, List.mem_flatMap, List.mem_map, List.mem_range] at hd
    obtain ⟨m, hm, dd, hdd, rfl⟩ := hd
    have hlen : (monthLengths (is_leap_year 2020)).getD m 0 ≤ 31 := by
      rw [show is_leap_year 2020 = true from rfl]
      interval_cases m <;> decide
    simp only [sampleRow, inRange, Date.code]
    simp only [Bool.and_eq_true, decide_eq_true_eq]
    refine ⟨by trivial, ?_, ?_⟩ <;> omega
  rw [List.filter_eq_self.mpr hfil, map_dates_sampleRow]
  rw [distinct_eq_self_of_nodup _ (yearDates_nodup 2020 (by decide))]
  decide

theorem c4aux_cov :
    check_date_range_coverage (create_connection env4 store2020full)
      env4.queryExc "P" ⟨2020, 1, 1⟩ ⟨2020, 12, 31⟩ = true := by
  show check_date_range_coverage (some store2020full) false "P" _ _ = true
  rw [check_coverage_eq, count_range_store2020]
  rw [show expectedDays ⟨2020, 1, 1⟩ ⟨2020, 12, 31⟩ = 366 from by decide]
  decide

theorem check_year_completeness_some (store : Store) (qexc : Bool)
    (city : String) (year : Nat) :
    check_year_completeness (some store) qexc city year
      = if qexc then false
        else decide (360 ≤ countDistinctDatesForYear store city year) := rfl

theorem c4aux_year :
    ∀ y ∈ get_year_range_from_date_range ⟨2020, 1, 1⟩ ⟨2020, 12, 31⟩,
      check_year_completeness (create_connection env4 store2020full)
        env4.queryExc "P" y = true := by
  intro y hy
  have hy2020 : y = 2020 := by
    have h : get_year_range_from_date_range ⟨2020, 1, 1⟩ ⟨2020, 12, 31⟩ = [2020] := rfl
    rw [h] at hy
    simpa using hy
  subst hy2020
  show check_year_completeness (some store2020full) false "P" 2020 = true
  rw [check_year_completeness_some]
  simp only [Bool.false_eq_true, if_false]
  rw [count_year_store2020]
  decide

theorem c4aux_fix :
    (get_or_fetch_city_data env4 store2020full "P" ⟨2020, 1, 1⟩ ⟨2020, 12, 31⟩).store
      = store2020full := by
  rw [sufficient_noop env4 store2020full "P" _ _ c4aux_cov c4aux_year]

/-- Witness for claim C4: on a store already holding all of 2020, a run
over 2020 changes nothing, and the repeated run issues zero network calls
and returns the same data. -/
theorem claim4_witness :
    netCalls (get_or_fetch_city_data env4
        (get_or_fetch_city_data env4 store2020full "P" ⟨2020, 1, 1⟩
          ⟨2020, 12, 31⟩).store "P" ⟨2020, 1, 1⟩ ⟨2020, 12, 31⟩).events = 0
    ∧ (get_or_fetch_city_data env4
        (get_or_fetch_city_data env4 store2020full "P" ⟨2020, 1, 1⟩
          ⟨2020, 12, 31⟩).store "P" ⟨2020, 1, 1⟩ ⟨2020, 12, 31⟩).data
        = (get_or_fetch_city_data env4 store2020full "P" ⟨2020, 1, 1⟩
            ⟨2020, 12, 31⟩).data
    ∧ (get_or_fetch_city_data env4
        (get_or_fetch_city_data env4 store2020full "P" ⟨2020, 1, 1⟩
          ⟨2020, 12, 31⟩).store "P" ⟨2020, 1, 1⟩ ⟨2020, 12, 31⟩).store
        = (get_or_fetch_city_data env4 store2020full "P" ⟨2020, 1, 1⟩
            ⟨2020, 12, 31⟩).store := by
  apply claim4_idempotent_when_sufficient
  · rw [c4aux_fix]
    exact c4aux_cov
  · rw [c4aux_fix]
    exact c4aux_year

/-! Claim C2: last-write-wins upsert. -/

/-- Claim C2.  Upserting a record and then a second record with the same
`(city, date)` key but different measurement values leaves exactly one
stored row — the original key (and non-measurement columns) with the second
record's measurements — and a range read covering that date returns exactly
that one record. -/
theorem claim2_upsert_last_write_wins (r r2 : WRecord) (a b : Date)
    (hcity : r2.city = r.city) (hdate : r2.date = r.date)
    (hdiff : ¬(r2.temperature_max = r.temperature_max
      ∧ r2.temperature_min = r.temperature_min
      ∧ r2.rain_sum = r.rain_sum
      ∧ r2.sunshine_duration = r.sunshine_duration))
    (ha : a.code ≤ r.date.code) (hb : r.date.code ≤ b.code) :
    (store_weather_data true (fun _ => none)
        (store_weather_data true (fun _ => none) [] [r]).store [r2]).store
      = [updateMeasurements (toRow r) r2]
    ∧ get_city_data
        (some (store_weather_data true (fun _ => none)
          (store_weather_data true (fun _ => none) [] [r]).store [r2]).store)
        false r.city a b
      = [⟨r.date, r2.temperature_max, r2.temperature_min, r2.rain_sum,
          r2.sunshine_duration⟩] := by
  have hs1 : (store_weather_data true (fun _ => none) [] [r]).store = [toRow r] := rfl
  have hkey : keyMatches (toRow r) r2.city r2.date = true := by
    simp [keyMatches, toRow, hcity, hdate]
  have hfind : [toRow r].find? (fun row => keyMatches row r2.city r2.date)
      = some (toRow r) :=
    List.find?_cons_of_pos _ hkey
  have hme : measurementsEqual (toRow r) r2 = false := by
    rw [Bool.eq_false_iff]
    intro h
    simp only [measurementsEqual, toRow, Bool.and_eq_true, decide_eq_true_eq] at h
    exact hdiff ⟨h.1.1.1.symm, h.1.1.2.symm, h.1.2.symm, h.2.symm⟩
  have hup : upsertRow [toRow r] r2 = ([updateMeasurements (toRow r) r2], 2) := by
    unfold upsertRow
    rw [hfind]
    dsimp only
    rw [hme]
    simp [hkey]
  have hs2 : (store_weather_data true (fun _ => none) [toRow r] [r2]).store
      = [updateMeasurements (toRow r) r2] := by
    unfold store_weather_data upsertLoop
    rw [hup]
    simp [upsertLoop]
  rw [hs1]
  refine ⟨hs2, ?_⟩
  rw [hs2]
  have hpred : (decide ((updateMeasurements (toRow r) r2).city = r.city)
      && inRange (updateMeasurements (toRow r) r2).date a b) = true := by
    simp [updateMeasurements, toRow, inRange, ha, hb]
  unfold get_city_data
  simp only [Bool.false_eq_true, if_false, List.filter_cons, hpred, List.filter_nil,
    List.map_cons, List.map_nil]
  simp [distinct, distinctAux, List.insertionSort, toOutRow, updateMeasurements, toRow]

/-- Witness for claim C2 at a concrete record pair. -/
theorem claim2_witness :
    (store_weather_data true (fun _ => none)
        (store_weather_data true (fun _ => none) []
          [⟨"P", "F", ⟨2020, 1, 5⟩, 10, 2, 0, 3600, 48, 2⟩]).store
        [⟨"P", "F", ⟨2020, 1, 5⟩, 11, 3, 1, 1800, 48, 2⟩]).store
      = [updateMeasurements (toRow ⟨"P", "F", ⟨2020, 1, 5⟩, 10, 2, 0, 3600, 48, 2⟩)
          ⟨"P", "F", ⟨2020, 1, 5⟩, 11, 3, 1, 1800, 48, 2⟩]
    ∧ get_city_data
        (some (store_weather_data true (fun _ => none)
          (store_weather_data true (fun _ => none) []
            [⟨"P", "F", ⟨2020, 1, 5⟩, 10, 2, 0, 3600, 48, 2⟩]).store
          [⟨"P", "F", ⟨2020, 1, 5⟩, 11, 3, 1, 1800, 48, 2⟩]).store)
        false "P" ⟨2020, 1, 1⟩ ⟨2020, 1, 31⟩
      = [⟨⟨2020, 1, 5⟩, 11, 3, 1, 1800⟩] :=
  claim2_upsert_last_write_wins
    ⟨"P", "F", ⟨2020, 1, 5⟩, 10, 2, 0, 3600, 48, 2⟩
    ⟨"P", "F", ⟨2020, 1, 5⟩, 11, 3, 1, 1800, 48, 2⟩
    ⟨2020, 1, 1⟩ ⟨2020, 1, 31⟩ rfl rfl (by decide) (by decide) (by decide)

/-! Claim C6: behaviour of `store_weather_data` on a non-duplicate-key
storage rejection inside a batch. -/

/-- Counterexample to claim C6.  In a two-record batch whose second record
is rejected by the store with an error that is not a duplicate-key error,
the first record had already been upserted, yet the function reports no
`(inserted, updated, skipped)` counts at all (`report = none`, in
particular not the accurate `some (1, 0, 0)`), rolls the whole batch back
(the store is unchanged — the successful record is dropped), and returns
`False` instead of surfacing an exception. -/
theorem claim6_counterexample :
    (store_weather_data true
        (fun w => if w.date = ⟨2020, 1, 2⟩ then some DbErr.otherErr else none) []
        [⟨"P", "F", ⟨2020, 1, 1⟩, 1, 2, 3, 4, 5, 6⟩,
         ⟨"P", "F", ⟨2020, 1, 2⟩, 1, 2, 3, 4, 5, 6⟩]).report = none
    ∧ (store_weather_data true
        (fun w => if w.date = ⟨2020, 1, 2⟩ then some DbErr.otherErr else none) []
        [⟨"P", "F", ⟨2020, 1, 1⟩, 1, 2, 3, 4, 5, 6⟩,
         ⟨"P", "F", ⟨2020, 1, 2⟩, 1, 2, 3, 4, 5, 6⟩]).store = []
    ∧ (store_weather_data true
        (fun w => if w.date = ⟨2020, 1, 2⟩ then some DbErr.otherErr else none) []
        [⟨"P", "F", ⟨2020, 1, 1⟩, 1, 2, 3, 4, 5, 6⟩,
         ⟨"P", "F", ⟨2020, 1, 2⟩, 1, 2, 3, 4, 5, 6⟩]).ret = false
    ∧ (store_weather_data true
        (fun w => if w.date = ⟨2020, 1, 2⟩ then some DbErr.otherErr else none) []
        [⟨"P", "F", ⟨2020, 1, 1⟩, 1, 2, 3, 4, 5, 6⟩,
         ⟨"P", "F", ⟨2020, 1, 2⟩, 1, 2, 3, 4, 5, 6⟩]).report ≠ some (1, 0, 0) := by
  refine ⟨rfl, rfl, rfl, ?_⟩
  intro h
  rw [show (store_weather_data true
      (fun w => if w.date = ⟨2020, 1, 2⟩ then some DbErr.otherErr else none) []
      [⟨"P", "F", ⟨2020, 1, 1⟩, 1, 2, 3, 4, 5, 6⟩,
       ⟨"P", "F", ⟨2020, 1, 2⟩, 1, 2, 3, 4, 5, 6⟩]).report = none from rfl] at h
  cases h

theorem upsertLoop_none_of_otherErr (errf : WRecord → Option DbErr) :
    ∀ (batch : List WRecord) (store : Store) (ins upd skip : Nat) (r : WRecord),
      r ∈ batch → errf r = some .otherErr →
      upsertLoop errf store ins upd skip batch = none
  | [], _, _, _, _, r, hr, _ => absurd hr (List.not_mem_nil r)
  | x :: rest, store, ins, upd, skip, r, hr, herr => by
    unfold upsertLoop
    rw [show errf x = errf x from rfl]
    cases hx : errf x with
    | none =>
      have hrrest : r ∈ rest := by
        rcases List.mem_cons.mp hr with rfl | h
        · rw [hx] at herr
          cases herr
        · exact h
      dsimp only
      split
      · exact upsertLoop_none_of_otherErr errf rest _ _ _ _ r hrrest herr
      · split
        · exact upsertLoop_none_of_otherErr errf rest _ _ _ _ r hrrest herr
        · exact upsertLoop_none_of_otherErr errf rest _ _ _ _ r hrrest herr
    | some e =>
      cases e with
      | duplicateKey =>
        have hrrest : r ∈ rest := by
          rcases List.mem_cons.mp hr with rfl | h
          · rw [hx] at herr
            simp at herr
          · exact h
        exact upsertLoop_none_of_otherErr errf rest _ _ _ _ r hrrest herr
      | otherErr => rfl

/-- Claim C6, amended to what the code does.  When some record of a
non-empty batch is rejected by the store with a non-duplicate-key error,
`store_weather_data` rolls back the entire batch (the store is left exactly
as before, records that had succeeded included), returns `False`, and
reports no per-record counts; no exception reaches the caller. -/
theorem claim6_amended_rollback (connOk : Bool) (errf : WRecord → Option DbErr)
    (store : Store) (batch : List WRecord) (r : WRecord)
    (hr : r ∈ batch) (herr : errf r = some .otherErr) :
    store_weather_data connOk errf store batch = ⟨store, false, none⟩ := by
  unfold store_weather_data
  have hne : batch.isEmpty = false := by
    cases batch
    · cases hr
    · rfl
  rw [hne]
  cases connOk with
  | false => simp
  | true =>
    rw [upsertLoop_none_of_otherErr errf batch store 0 0 0 r hr herr]
    simp

/-- Witness for the amended claim C6 at a concrete batch. -/
theorem claim6_amended_witness :
    store_weather_data true (fun _ => some DbErr.otherErr) []
      [⟨"P", "F", ⟨2020, 1, 1⟩, 1, 2, 3, 4, 5, 6⟩] = ⟨[], false, none⟩ :=
  claim6_amended_rollback true (fun _ => some DbErr.otherErr) [] _
    ⟨"P", "F", ⟨2020, 1, 1⟩, 1, 2, 3, 4, 5, 6⟩ (by simp) rfl

/-! Claim C7: same-batch deduplication in the fetcher's reshaping loop. -/

/-- Index of the first occurrence of an element in a list. -/
def firstIdx [DecidableEq α] (a : α) : List α → Nat
  | [] => 0
  | b :: l => if a = b then 0 else firstIdx a l + 1

theorem tail_getElem? (l : List α) (n : Nat) : l.tail[n]? = l[n + 1]? := by
  cases l <;> simp

theorem processDailyGo_dates (coords : Coordinates) :
    ∀ (time seen : List Date) (tmaxs tmins rains suns : List Int)
      (out : List WRecord),
      processDailyGo coords seen time tmaxs tmins rains suns = some out →
      ∀ r ∈ out, r.date ∈ time ∧ r.date ∉ seen
  | [], seen, tmaxs, tmins, rains, suns, out, h => by
    unfold processDailyGo at h
    cases h
    intro r hr
    cases hr
  | t :: ts, seen, tmaxs, tmins, rains, suns, out, h => by
    unfold processDailyGo at h
    by_cases hts : t ∈ seen
    · rw [if_pos hts] at h
      intro r hr
      have ih := processDailyGo_dates coords ts seen _ _ _ _ out h r hr
      exact ⟨List.mem_cons_of_mem _ ih.1, ih.2⟩
    · rw [if_neg hts] at h
      rcases tmaxs with _ | ⟨a, as⟩ <;> rcases tmins with _ | ⟨b, bs⟩ <;>
        rcases rains with _ | ⟨c, cs⟩ <;> rcases suns with _ | ⟨dv, ds⟩ <;>
        try simp at h
      rcases hgo : processDailyGo coords (t :: seen) ts as bs cs ds with _ | rest <;>
        rw [hgo] at h <;> simp at h
      subst h
      intro r hr
      rcases List.mem_cons.mp hr with rfl | hrrest
      · exact ⟨List.mem_cons_self _ _, hts⟩
      · have ih := processDailyGo_dates coords ts (t :: seen) _ _ _ _ rest hgo r hrrest
        refine ⟨List.mem_cons_of_mem _ ih.1, fun hs => ih.2 (List.mem_cons_of_mem _ hs)⟩

theorem processDailyGo_countP (coords : Coordinates) :
    ∀ (time seen : List Date) (tmaxs tmins rains suns : List Int)
      (out : List WRecord) (d : Date),
      processDailyGo coords seen time tmaxs tmins rains suns = some out →
      d ∉ seen →
      out.countP (fun r => decide (r.date = d)) = (if d ∈ time then 1 else 0)
  | [], seen, tmaxs, tmins, rains, suns, out, d, h, hd => by
    unfold processDailyGo at h
    cases h
    simp
  | t :: ts, seen, tmaxs, tmins, rains, suns, out, d, h, hd => by
    unfold processDailyGo at h
    by_cases hts : t ∈ seen
    · rw [if_pos hts] at h
      have hdt : d ≠ t := fun hdt => hd (hdt ▸ hts)
      rw [processDailyGo_countP coords ts seen _ _ _ _ out d h hd]
      simp [List.mem_cons, hdt]
    · rw [if_neg hts] at h
      rcases tmaxs with _ | ⟨a, as⟩ <;> rcases tmins with _ | ⟨b, bs⟩ <;>
        rcases rains with _ | ⟨c, cs⟩ <;> rcases suns with _ | ⟨dv, ds⟩ <;>
        try simp at h
      rcases hgo : processDailyGo coords (t :: seen) ts as bs cs ds with _ | rest <;>
        rw [hgo] at h <;> simp at h
      subst h
      rw [List.countP_cons]
      by_cases hdt : d = t
      · subst hdt
        have hrest : rest.countP (fun r => decide (r.date = d)) = 0 := by
          rw [List.countP_eq_zero]
          intro r hr
          have := (processDailyGo_dates coords ts (d :: seen) _ _ _ _ rest hgo r hr).2
          simp only [decide_eq_true_eq]
          intro hrd
          exact this (hrd ▸ List.mem_cons_self d seen)
        simp [hrest]
      · have hd' : d ∉ t :: seen := by
          simp only [List.mem_cons]
          rintro (rfl | hs)
          · exact hdt rfl
          · exact hd hs
        rw [processDailyGo_countP coords ts (t :: seen) _ _ _ _ rest d hgo hd']
        simp [List.mem_cons, hdt, Ne.symm hdt]

theorem processDailyGo_first (coords : Coordinates) :
    ∀ (time seen : List Date) (tmaxs tmins rains suns : List Int)
      (out : List WRecord) (d : Date),
      processDailyGo coords seen time tmaxs tmins rains suns = some out →
      d ∉ seen →
      ∀ r ∈ out, r.date = d →
        tmaxs[firstIdx d time]? = some r.temperature_max
        ∧ tmins[firstIdx d time]? = some r.temperature_min
        ∧ rains[firstIdx d time]? = some r.rain_sum
        ∧ suns[firstIdx d time]? = some r.sunshine_duration
        ∧ r.city = coords.name ∧ r.country = coords.country
        ∧ r.latitude = coords.latitude ∧ r.longitude = coords.longitude
  | [], seen, tmaxs, tmins, rains, suns, out, d, h, hd => by
    unfold processDailyGo at h
    cases h
    intro r hr
    cases hr
  | t :: ts, seen, tmaxs, tmins, rains, suns, out, d, h, hd => by
    unfold processDailyGo at h
    by_cases hts : t ∈ seen
    · rw [if_pos hts] at h
      intro r hr hrd
      have hdt : d ≠ t := fun hdt => hd (hdt ▸ hts)
      have ih := processDailyGo_first coords ts seen _ _ _ _ out d h hd r hr hrd
      rw [tail_getElem?, tail_getElem?, tail_getElem?, tail_getElem?] at ih
      unfold firstIdx
      rw [if_neg hdt]
      exact ih
    · rw [if_neg hts] at h
      rcases tmaxs with _ | ⟨a, as⟩ <;> rcases tmins with _ | ⟨b, bs⟩ <;>
        rcases rains with _ | ⟨c, cs⟩ <;> rcases suns with _ | ⟨dv, ds⟩ <;>
        try simp at h
      rcases hgo : processDailyGo coords (t :: seen) ts as bs cs ds with _ | rest <;>
        rw [hgo] at h <;> simp at h
      subst h
      intro r hr hrd
      rcases List.mem_cons.mp hr with rfl | hrrest
      · have hdt : d = t := hrd.symm
        subst hdt
        unfold firstIdx
        rw [if_pos rfl]
        exact ⟨by simp, by simp, by simp, by simp, rfl, rfl, rfl, rfl⟩
      · have hrdts := (processDailyGo_dates coords ts (t :: seen) _ _ _ _ rest hgo r hrrest).2
        have hdt : d ≠ t := by
          intro hdt
          exact hrdts (hrd ▸ hdt ▸ List.mem_cons_self t seen)
        have hd' : d ∉ t :: seen := by
          simp only [List.mem_cons]
          rintro (rfl | hs)
          · exact hdt rfl
          · exact hd hs
        have ih := processDailyGo_first coords ts (t :: seen) _ _ _ _ rest d hgo hd' r hrrest hrd
        unfold firstIdx
        rw [if_neg hdt]
        simpa using ih

/-- Claim C7.  When the archive response carries the same date at two
distinct array indices, the fetcher produces exactly one record for that
date, and that record's measurements are the array entries at the date's
first occurrence index (later occurrences are dropped). -/
theorem claim7_fetch_response_dedup (coords : Coordinates) (dd : DailyData)
    (out : List WRecord) (d : Date) (i j : Nat)
    (hout : processDaily coords dd = some out)
    (_hij : i < j) (hi : dd.time[i]? = some d) (_hj : dd.time[j]? = some d) :
    out.countP (fun r => decide (r.date = d)) = 1
    ∧ ∀ r ∈ out, r.date = d →
        dd.temperature_2m_max[firstIdx d dd.time]? = some r.temperature_max
        ∧ dd.temperature_2m_min[firstIdx d dd.time]? = some r.temperature_min
        ∧ dd.rain_sum[firstIdx d dd.time]? = some r.rain_sum
        ∧ dd.sunshine_duration[firstIdx d dd.time]? = some r.sunshine_duration
        ∧ r.city = coords.name ∧ r.country = coords.country := by
  have hmem : d ∈ dd.time := List.getElem?_mem hi
  constructor
  · rw [processDailyGo_countP coords dd.time [] _ _ _ _ out d hout (by simp)]
    simp [hmem]
  · intro r hr hrd
    have h := processDailyGo_first coords dd.time [] _ _ _ _ out d hout (by simp) r hr hrd
    exact ⟨h.1, h.2.1, h.2.2.1, h.2.2.2.1, h.2.2.2.2.1, h.2.2.2.2.2.1⟩

/-- Concrete coordinates for the claim C7 witness. -/
def coordsW : Coordinates := ⟨"P", "F", 48, 2⟩

/-- Witness for claim C7: a concrete response with the same date at
indices 0 and 2. -/
theorem claim7_witness :
    (([⟨coordsW.name, coordsW.country, ⟨2020, 1, 1⟩, 10, 1, 0, 5,
        coordsW.latitude, coordsW.longitude⟩,
       ⟨coordsW.name, coordsW.country, ⟨2020, 1, 2⟩, 20, 2, 0, 5,
        coordsW.latitude, coordsW.longitude⟩] : List WRecord).countP
      (fun r => decide (r.date = ⟨2020, 1, 1⟩)) = 1)
    ∧ ∀ r ∈ ([⟨coordsW.name, coordsW.country, ⟨2020, 1, 1⟩, 10, 1, 0, 5,
        coordsW.latitude, coordsW.longitude⟩,
       ⟨coordsW.name, coordsW.country, ⟨2020, 1, 2⟩, 20, 2, 0, 5,
        coordsW.latitude, coordsW.longitude⟩] : List WRecord),
        r.date = (⟨2020, 1, 1⟩ : Date) →
        ([10, 20, 30] : List Int)[firstIdx (⟨2020, 1, 1⟩ : Date)
          [⟨2020, 1, 1⟩, ⟨2020, 1, 2⟩, ⟨2020, 1, 1⟩]]? = some r.temperature_max
        ∧ ([1, 2, 3] : List Int)[firstIdx (⟨2020, 1, 1⟩ : Date)
          [⟨2020, 1, 1⟩, ⟨2020, 1, 2⟩, ⟨2020, 1, 1⟩]]? = some r.temperature_min
        ∧ ([0, 0, 0] : List Int)[firstIdx (⟨2020, 1, 1⟩ : Date)
          [⟨2020, 1, 1⟩, ⟨2020, 1, 2⟩, ⟨2020, 1, 1⟩]]? = some r.rain_sum
        ∧ ([5, 5, 5] : List Int)[firstIdx (⟨2020, 1, 1⟩ : Date)
          [⟨2020, 1, 1⟩, ⟨2020, 1, 2⟩, ⟨2020, 1, 1⟩]]? = some r.sunshine_duration
        ∧ r.city = coordsW.name ∧ r.country = coordsW.country :=
  claim7_fetch_response_dedup coordsW
    ⟨[⟨2020, 1, 1⟩, ⟨2020, 1, 2⟩, ⟨2020, 1, 1⟩], [10, 20, 30], [1, 2, 3],
     [0, 0, 0], [5, 5, 5]⟩
    _ ⟨2020, 1, 1⟩ 0 2 rfl (by decide) rfl rfl

/-! Claim C9: reads are sorted by date and duplicate-free, given the
`(city, date)` uniqueness invariant of the table. -/

theorem update_preserves_keys (r : WRecord) (x : Row) :
    (if keyMatches x r.city r.date then updateMeasurements x r else x).city = x.city
    ∧ (if keyMatches x r.city r.date then updateMeasurements x r else x).date = x.date := by
  split <;> exact ⟨rfl, rfl⟩

theorem keyUnique_upsertRow (store : Store) (r : WRecord) (h : KeyUnique store) :
    KeyUnique (upsertRow store r).1 := by
  unfold upsertRow
  cases hf : store.find? (fun row => keyMatches row r.city r.date) with
  | none =>
    dsimp only
    rw [KeyUnique, List.pairwise_append]
    refine ⟨h, List.pairwise_singleton _ _, ?_⟩
    intro x hx y hy
    have hxk := List.find?_eq_none.mp hf x hx
    simp only [List.mem_singleton] at hy
    subst hy
    simp only [keyMatches, Bool.and_eq_true, decide_eq_true_eq, not_and] at hxk
    intro hcon
    exact hxk hcon.1 hcon.2
  | some old =>
    dsimp only
    split
    · exact h
    · refine List.Pairwise.map _ ?_ h
      intro x y hxy
      rw [(update_preserves_keys r x).1, (update_preserves_keys r x).2,
        (update_preserves_keys r y).1, (update_preserves_keys r y).2]
      exact hxy

theorem keyUnique_upsertLoop (errf : WRecord → Option DbErr) :
    ∀ (batch : List WRecord) (store : Store) (ins upd skip : Nat)
      (st : Store) (i u k : Nat),
      KeyUnique store →
      upsertLoop errf store ins upd skip batch = some (st, i, u, k) →
      KeyUnique st
  | [], store, ins, upd, skip, st, i, u, k, h, he => by
    unfold upsertLoop at he
    cases he
    exact h
  | x :: rest, store, ins, upd, skip, st, i, u, k, h, he => by
    unfold upsertLoop at he
    cases hx : errf x with
    | none =>
      rw [hx] at he
      dsimp only at he
      split at he
      · exact keyUnique_upsertLoop errf rest _ _ _ _ _ _ _ _
          (keyUnique_upsertRow store x h) he
      · split at he
        · exact keyUnique_upsertLoop errf rest _ _ _ _ _ _ _ _
            (keyUnique_upsertRow store x h) he
        · exact keyUnique_upsertLoop errf rest _ _ _ _ _ _ _ _
            (keyUnique_upsertRow store x h) he
    | some e =>
      rw [hx] at he
      cases e with
      | duplicateKey => exact keyUnique_upsertLoop errf rest _ _ _ _ _ _ _ _ h he
      | otherErr =>
        dsimp only at he
        cases he

theorem keyUnique_store_weather_data (connOk : Bool) (errf : WRecord → Option DbErr)
    (store : Store) (batch : List WRecord) (h : KeyUnique store) :
    KeyUnique (store_weather_data connOk errf store batch).store := by
  unfold store_weather_data
  split
  · exact h
  · split
    · exact h
    · cases hl : upsertLoop errf store 0 0 0 batch with
      | none => exact h
      | some p =>
        rcases p with ⟨st, i, u, k⟩
        exact keyUnique_upsertLoop errf batch store 0 0 0 st i u k h hl

theorem keyUnique_ensure_date_range (env : Env) (store : Store) (city : String)
    (s e : Date) (h : KeyUnique store) :
    KeyUnique (ensure_date_range_data env store city s e).1 := by
  unfold ensure_date_range_data
  split
  · exact h
  · dsimp only
    cases h2 : (fetch_weather_data env city s e).2 with
    | none => exact h
    | some ws =>
      dsimp only
      split
      · exact h
      · exact keyUnique_store_weather_data env.connOk env.execErr store ws h

theorem keyUnique_ensure_year (env : Env) (store : Store) (city : String)
    (year : Nat) (h : KeyUnique store) :
    KeyUnique (ensure_year_data env store city year).1 := by
  unfold ensure_year_data
  split
  · exact h
  · dsimp only
    cases h2 : (fetch_weather_data_for_year env city year).2 with
    | none => exact h
    | some ws =>
      dsimp only
      split
      · exact h
      · exact keyUnique_store_weather_data env.connOk env.execErr store ws h

theorem keyUnique_fold_years (env : Env) (city : String) :
    ∀ (ys : List Nat) (st : Store) (evs : List Event), KeyUnique st →
      KeyUnique ((ys.foldl (fun (acc : Store × List Event) y =>
        ((ensure_year_data env acc.1 city y).1,
         acc.2 ++ (ensure_year_data env acc.1 city y).2.1)) (st, evs)).1)
  | [], st, evs, h => h
  | y :: ys, st, evs, h => by
    simp only [List.foldl_cons]
    exact keyUnique_fold_years env city ys _ _ (keyUnique_ensure_year env st city y h)

theorem keyUnique_get_or_fetch (env : Env) (store : Store) (city : String)
    (s e : Date) (h : KeyUnique store) :
    KeyUnique (get_or_fetch_city_data env store city s e).store := by
  unfold get_or_fetch_city_data
  exact keyUnique_fold_years env city _ _ _
    (keyUnique_ensure_date_range env store city s e h)

theorem sorted_get_city_data (conn : Option Store) (qexc : Bool)
    (city : String) (s e : Date) :
    List.Sorted outRowLe (get_city_data conn qexc city s e) := by
  unfold get_city_data
  cases conn with
  | none => exact List.sorted_nil
  | some store =>
    dsimp only
    split
    · exact List.sorted_nil
    · exact List.sorted_insertionSort outRowLe _

theorem nodup_dates_get_city_data (conn : Option Store) (qexc : Bool)
    (city : String) (s e : Date)
    (h : ∀ st, conn = some st → KeyUnique st) :
    ((get_city_data conn qexc city s e).map (·.date)).Nodup := by
  cases conn with
  | none => simp [get_city_data]
  | some store =>
    have hst := h store rfl
    unfold get_city_data
    dsimp only
    split
    · simp
    · have h1 : (store.filter
          (fun row => decide (row.city = city) && inRange row.date s e)).Pairwise
            (fun a b => a.date ≠ b.date) := by
        have hp : (store.filter
            (fun row => decide (row.city = city) && inRange row.date s e)).Pairwise
              (fun a b => ¬(a.city = b.city ∧ a.date = b.date)) :=
          hst.sublist (List.filter_sublist _)
        refine List.Pairwise.imp_of_mem ?_ hp
        intro a b ha hb hab hdate
        have hca : a.city = city := by
          have := List.of_mem_filter ha
          simp only [Bool.and_eq_true, decide_eq_true_eq] at this
          exact this.1
        have hcb : b.city = city := by
          have := List.of_mem_filter hb
          simp only [Bool.and_eq_true, decide_eq_true_eq] at this
          exact this.1
        exact hab ⟨hca.trans hcb.symm, hdate⟩
      have h2 : ((store.filter
          (fun row => decide (row.city = city) && inRange row.date s e)).map
            toOutRow).Pairwise (fun a b => a.date ≠ b.date) := by
        rw [List.pairwise_map]
        exact h1
      have h3 := h2.sublist (distinct_sublist _)
      have h4 : (List.insertionSort outRowLe (distinct ((store.filter
          (fun row => decide (row.city = city) && inRange row.date s e)).map
            toOutRow))).Pairwise (fun a b => a.date ≠ b.date) :=
        (List.Perm.pairwise_iff (by intro x y hab; exact Ne.symm hab)
          (List.perm_insertionSort outRowLe _)).mpr h3
      show (List.map _ _).Pairwise (· ≠ ·)
      rw [List.pairwise_map]
      exact h4

/-- Claim C9.  Under the `(city, date)` unique-key invariant, both a direct
`get_city_data` read and the sequence returned by a whole orchestration run
are sorted ascending by date and contain at most one record per date. -/
theorem claim9_sorted_unique_dates (env : Env) (store : Store) (qexc : Bool)
    (city : String) (s e : Date) (hkey : KeyUnique store) :
    (List.Sorted outRowLe (get_city_data (some store) qexc city s e)
      ∧ ((get_city_data (some store) qexc city s e).map (·.date)).Nodup)
    ∧ (List.Sorted outRowLe (get_or_fetch_city_data env store city s e).data
      ∧ (((get_or_fetch_city_data env store city s e).data).map (·.date)).Nodup) := by
  refine ⟨⟨sorted_get_city_data _ _ _ _ _,
    nodup_dates_get_city_data _ _ _ _ _ ?_⟩, ?_, ?_⟩
  · intro st hst
    cases hst
    exact hkey
  · show List.Sorted outRowLe
      (get_city_data (create_connection env
        (get_or_fetch_city_data env store city s e).store) env.queryExc city s e)
    exact sorted_get_city_data _ _ _ _ _
  · show ((get_city_data (create_connection env
        (get_or_fetch_city_data env store city s e).store)
          env.queryExc city s e).map (·.date)).Nodup
    apply nodup_dates_get_city_data
    intro st hst
    unfold create_connection at hst
    split at hst
    · cases hst
      exact keyUnique_get_or_fetch env store city s e hkey
    · cases hst

/-- Witness for claim C9 at a concrete two-row store (deliberately
unsorted in storage order). -/
theorem claim9_witness :
    (List.Sorted outRowLe (get_city_data
        (some [⟨"P", "F", ⟨2020, 1, 2⟩, 10, 2, 0, 3600, 2020, 48, 2⟩,
               ⟨"P", "F", ⟨2020, 1, 1⟩, 11, 3, 1, 1800, 2020, 48, 2⟩]) false
        "P" ⟨2020, 1, 1⟩ ⟨2020, 1, 31⟩)
      ∧ ((get_city_data
        (some [⟨"P", "F", ⟨2020, 1, 2⟩, 10, 2, 0, 3600, 2020, 48, 2⟩,
               ⟨"P", "F", ⟨2020, 1, 1⟩, 11, 3, 1, 1800, 2020, 48, 2⟩]) false
        "P" ⟨2020, 1, 1⟩ ⟨2020, 1, 31⟩).map (·.date)).Nodup)
    ∧ (List.Sorted outRowLe (get_or_fetch_city_data env4
        [⟨"P", "F", ⟨2020, 1, 2⟩, 10, 2, 0, 3600, 2020, 48, 2⟩,
         ⟨"P", "F", ⟨2020, 1, 1⟩, 11, 3, 1, 1800, 2020, 48, 2⟩]
        "P" ⟨2020, 1, 1⟩ ⟨2020, 1, 31⟩).data
      ∧ (((get_or_fetch_city_data env4
        [⟨"P", "F", ⟨2020, 1, 2⟩, 10, 2, 0, 3600, 2020, 48, 2⟩,
         ⟨"P", "F", ⟨2020, 1, 1⟩, 11, 3, 1, 1800, 2020, 48, 2⟩]
        "P" ⟨2020, 1, 1⟩ ⟨2020, 1, 31⟩).data).map (·.date)).Nodup) :=
  claim9_sorted_unique_dates env4
    [⟨"P", "F", ⟨2020, 1, 2⟩, 10, 2, 0, 3600, 2020, 48, 2⟩,
     ⟨"P", "F", ⟨2020, 1, 1⟩, 11, 3, 1, 1800, 2020, 48, 2⟩] false
    "P" ⟨2020, 1, 1⟩ ⟨2020, 1, 31⟩
    (by
      unfold KeyUnique
      refine List.pairwise_cons.mpr ⟨?_, List.pairwise_singleton _ _⟩
      intro b hb
      simp only [List.mem_singleton] at hb
      subst hb
      simp)

end Weather
